import Mathlib

/-!
Verification of `kv/storage/raft_storage/raft_server.go` (TinyKV raft storage
facade): a shallow embedding of the `RaftStorage` type and its operations
`checkResponse`, `Write`, `Reader`, `Stop`, and `NewRaftStorage`, together with
theorems about the command-building, error-classification, resource-release and
teardown behavior.

The raft group router together with the per-command callback
(`raftRouter.SendRaftCommand(request, cb)` followed by `cb.WaitResp()`) is
modelled as an opaque function from the proposed command to an outcome: either
a send error, or the state of the fulfilled callback (response plus optional
engine read transaction).  Imperative effects (proposals made, transactions
discarded, workers stopped, directories created) are returned as explicit
traces.
-/

/-- Go `[]byte`. -/
abbrev Bytes := List Nat

/-- The `metapb.Peer`: (peer id, store id). -/
structure Peer where
  id : Nat
  storeId : Nat
deriving DecidableEq, Repr

/-- The `metapb.RegionEpoch`. -/
structure RegionEpoch where
  confVer : Nat
  version : Nat
deriving DecidableEq, Repr

/-- The `metapb.Region`: the region descriptor. -/
structure Region where
  id : Nat
  startKey : Bytes
  endKey : Bytes
  regionEpoch : Option RegionEpoch
  peers : List Peer
deriving DecidableEq, Repr

/-- The `kvrpcpb.Context`: the routing context attached to each request. -/
structure Context where
  regionId : Nat
  regionEpoch : Option RegionEpoch
  peer : Option Peer
  term : Nat
deriving DecidableEq, Repr

/-- Modelled from the spec: `storage.Modify`'s dynamic `Data` field holds a
`Put{cf,key,value}` or a `Delete{cf,key}` operation; any other dynamic type is
represented by `other` (the type switch in `Write` has no case for it). -/
inductive ModifyData where
  | put (cf : String) (key : Bytes) (value : Bytes)
  | delete (cf : String) (key : Bytes)
  | other
deriving DecidableEq, Repr

/-- Modelled from the spec: `storage.Modify` wraps one key-value operation. -/
structure Modify where
  data : ModifyData
deriving DecidableEq, Repr

/-- Whether a modification is one of the two translated kinds. -/
def ModifyData.isWrite : ModifyData → Bool
  | .put _ _ _ => true
  | .delete _ _ => true
  | .other => false

/-- The `raft_cmdpb.CmdType`. -/
inductive CmdType where
  | invalid
  | get
  | put
  | delete
  | snap
deriving DecidableEq, Repr

/-- The `raft_cmdpb.GetRequest`. -/
structure GetRequest where
  cf : String
  key : Bytes
deriving DecidableEq, Repr

/-- The `raft_cmdpb.PutRequest`. -/
structure PutRequest where
  cf : String
  key : Bytes
  value : Bytes
deriving DecidableEq, Repr

/-- The `raft_cmdpb.DeleteRequest`. -/
structure DeleteRequest where
  cf : String
  key : Bytes
deriving DecidableEq, Repr

/-- The `raft_cmdpb.SnapRequest`: carries no payload. -/
structure SnapRequest where
deriving DecidableEq, Repr

/-- The `raft_cmdpb.Request`: a command type tag plus one optional sub-request per
kind (proto optional fields are pointers in Go; `none` models `nil`). -/
structure Request where
  cmdType : CmdType
  get : Option GetRequest := none
  put : Option PutRequest := none
  delete : Option DeleteRequest := none
  snap : Option SnapRequest := none
deriving DecidableEq, Repr

/-- The `raft_cmdpb.RaftRequestHeader`. -/
structure RaftRequestHeader where
  regionId : Nat
  peer : Option Peer
  regionEpoch : Option RegionEpoch
  term : Nat
deriving DecidableEq, Repr

/-- The `raft_cmdpb.RaftCmdRequest`: one command, a header plus a request batch. -/
structure RaftCmdRequest where
  header : RaftRequestHeader
  requests : List Request
deriving DecidableEq, Repr

/-- The `errorpb.Error`: the structured region error carried in a response
header.  Its internals are opaque to this file; only its presence matters. -/
structure ErrorPb where
  message : String
deriving DecidableEq, Repr

/-- The `raft_cmdpb.RaftResponseHeader`. -/
structure RaftResponseHeader where
  error : Option ErrorPb
deriving DecidableEq, Repr

/-- The `raft_cmdpb.SnapResponse`: carries the region descriptor captured at apply
time (a nullable pointer in Go). -/
structure SnapResponse where
  region : Option Region
deriving DecidableEq, Repr

/-- The `raft_cmdpb.Response`: one per-operation response. -/
structure Response where
  cmdType : CmdType
  snap : Option SnapResponse := none
deriving DecidableEq, Repr

/-- The `raft_cmdpb.RaftCmdResponse`. -/
structure RaftCmdResponse where
  header : RaftResponseHeader
  responses : List Response
deriving DecidableEq, Repr

/-- An engine read transaction (`badger.Txn`), opaque here. -/
abbrev Txn := Nat

/-- The Go `error` values produced by the facade:
`RegionError` (wrapping the response header's `errorpb.Error`), the
`errors.Errorf` count-mismatch error from `checkResponse`, and errors returned
by `raftRouter.SendRaftCommand`. -/
inductive StorageError where
  | regionError (e : ErrorPb)
  | countMismatch (got : Nat) (expected : Nat)
  | routerError (msg : String)
deriving DecidableEq, Repr

/-- The `RegionError` is the only caller-actionable region-rejection kind. -/
def StorageError.isRegionError : StorageError → Bool
  | .regionError _ => true
  | _ => false

/-- The `rs.checkResponse(resp, reqCount)`: a header error becomes a `RegionError`;
otherwise a response-count mismatch becomes a generic internal error;
otherwise success (`none`, modelling Go's `nil` error). -/
def RaftStorage.checkResponse (resp : RaftCmdResponse) (reqCount : Nat) :
    Option StorageError :=
  match resp.header.error with
  | some e => some (.regionError e)
  | none =>
    if resp.responses.length ≠ reqCount then
      some (.countMismatch resp.responses.length reqCount)
    else
      none

/-- Modelled from the spec: the state of a fulfilled `message.Callback` — the
response written by the router (`cb.WaitResp()`) plus the optional engine read
transaction attached at apply time (`cb.Txn`). -/
structure Callback where
  resp : RaftCmdResponse
  txn : Option Txn
deriving DecidableEq, Repr

/-- Outcome of `raftRouter.SendRaftCommand(request, cb)` followed by
`cb.WaitResp()`: either the send itself fails, or the callback is eventually
fulfilled. -/
inductive SendResult where
  | err (msg : String)
  | ok (cb : Callback)
deriving DecidableEq, Repr

/-- The opaque raft group router: proposing a command yields a send error or a
fulfilled callback. -/
abbrev Router := RaftCmdRequest → SendResult

/-- The type switch on `m.Data` inside `Write`: a `Put` or `Delete`
modification becomes one `raft_cmdpb.Request`; a modification of any other
dynamic type matches no case and is skipped. -/
def modifyToRequest (m : Modify) : Option Request :=
  match m.data with
  | .put cf key value =>
    some { cmdType := .put, put := some { cf := cf, key := key, value := value } }
  | .delete cf key =>
    some { cmdType := .delete, delete := some { cf := cf, key := key } }
  | .other => none

/-- The `reqs` slice accumulated by `Write`'s loop over `batch`. -/
def writeRequests (batch : List Modify) : List Request :=
  batch.filterMap modifyToRequest

/-- The `raft_cmdpb.RaftRequestHeader` built by both `Write` and `Reader` from
the routing context. -/
def requestHeader (ctx : Context) : RaftRequestHeader :=
  { regionId := ctx.regionId
    peer := ctx.peer
    regionEpoch := ctx.regionEpoch
    term := ctx.term }

/-- The single `raft_cmdpb.RaftCmdRequest` built by `Write`. -/
def writeCmd (ctx : Context) (batch : List Modify) : RaftCmdRequest :=
  { header := requestHeader ctx, requests := writeRequests batch }

/-- Result of `Write` plus an explicit trace of the commands proposed to the
raft router during the call. -/
structure WriteOutcome where
  proposed : List RaftCmdRequest
  result : Except StorageError Unit
deriving Repr

/-- The `rs.Write(ctx, batch)`: translate the batch, build one command, create a
callback and propose `(command, callback)` to the router, block on
`cb.WaitResp()`, then check the fulfilled response against the number of
translated requests. -/
def RaftStorage.Write (router : Router) (ctx : Context) (batch : List Modify) :
    WriteOutcome :=
  let request := writeCmd ctx batch
  match router request with
  | .err e => { proposed := [request], result := .error (.routerError e) }
  | .ok cb =>
    { proposed := [request]
      result :=
        match RaftStorage.checkResponse cb.resp (writeRequests batch).length with
        | some e => .error e
        | none => .ok () }

/-- The single request of a `Snap` command: type tag `Snap` and an empty
`SnapRequest` payload, every other sub-request `nil`. -/
def snapRequest : Request :=
  { cmdType := .snap, snap := some {} }

/-- The `raft_cmdpb.RaftCmdRequest` built by `Reader`. -/
def readCmd (ctx : Context) : RaftCmdRequest :=
  { header := requestHeader ctx, requests := [snapRequest] }

/-- The `NewRegionReader(txn, region)`: a reader bound to the engine read
transaction and the region descriptor captured at apply time. -/
structure RegionReader where
  txn : Txn
  region : Region
deriving DecidableEq, Repr

/-- Result of `Reader`: a region reader, a returned Go error, or a `panic`
(which aborts the code path instead of returning). -/
inductive ReaderResult where
  | ok (r : RegionReader)
  | err (e : StorageError)
  | fatal (msg : String)
deriving DecidableEq, Repr

/-- Result of `Reader` plus explicit traces: the commands proposed to the raft
router and the read transactions released via `cb.Txn.Discard()`. -/
structure ReaderOutcome where
  proposed : List RaftCmdRequest
  discarded : List Txn
  result : ReaderResult
deriving Repr

/-- The `rs.Reader(ctx)`: build a `Snap` command with the same header as a write,
propose it with a fresh callback, block on `cb.WaitResp()`.  On a
`checkResponse` failure, discard `cb.Txn` if attached and return the error.
Otherwise a missing `cb.Txn` panics; a wrong response count panics; accessing
the region through `resp.Responses[0].GetSnap().Region` dereferences nil (a
runtime panic) when the snap response or its region pointer is `nil`; else a
`RegionReader` over `cb.Txn` and that region is returned. -/
def RaftStorage.Reader (router : Router) (ctx : Context) : ReaderOutcome :=
  let request := readCmd ctx
  match router request with
  | .err e => { proposed := [request], discarded := [], result := .err (.routerError e) }
  | .ok cb =>
    match RaftStorage.checkResponse cb.resp 1 with
    | some e =>
      { proposed := [request]
        discarded := cb.txn.toList
        result := .err e }
    | none =>
      match cb.txn with
      | none =>
        { proposed := [request], discarded := []
          result := .fatal "can not found region snap" }
      | some txn =>
        if cb.resp.responses.length ≠ 1 then
          { proposed := [request], discarded := []
            result := .fatal "wrong response count for snap cmd" }
        else
          match cb.resp.responses.head? with
          | none =>
            { proposed := [request], discarded := []
              result := .fatal "index out of range" }
          | some r0 =>
            match r0.snap with
            | none =>
              { proposed := [request], discarded := []
                result := .fatal "invalid memory address or nil pointer dereference" }
            | some s =>
              match s.region with
              | none =>
                { proposed := [request], discarded := []
                  result := .fatal "invalid memory address or nil pointer dereference" }
              | some region =>
                { proposed := [request], discarded := []
                  result := .ok { txn := txn, region := region } }

/-- The teardown and engine-close steps of `Stop`, in the order they appear in
the trace of a run. -/
inductive StopEvent where
  | stopSnapWorker
  | stopNode
  | stopResolveWorker
  | waitGroupWait
  | closeRaftEngine
  | closeKvEngine
deriving DecidableEq, Repr

/-- Result of `Stop` plus the trace of teardown steps performed. -/
structure StopOutcome where
  events : List StopEvent
  result : Except String Unit
deriving Repr

/-- The `engines.Raft.Close()` / `engines.Kv.Close()`: the environment decides
whether each close succeeds (`none`) or fails with an error. -/
def engineClose (ev : StopEvent) (closeErr : Option String)
    (tr : List StopEvent) : List StopEvent × Option String :=
  (tr ++ [ev], closeErr)

/-- The `rs.Stop()`: stop the snap worker, the node, the resolve worker, wait on
the wait group, then close the raft engine and — only if that succeeded — the
kv engine, returning the first close error. -/
def RaftStorage.Stop (raftCloseErr kvCloseErr : Option String) : StopOutcome :=
  let tr : List StopEvent := []
  let tr := tr ++ [StopEvent.stopSnapWorker]
  let tr := tr ++ [StopEvent.stopNode]
  let tr := tr ++ [StopEvent.stopResolveWorker]
  let tr := tr ++ [StopEvent.waitGroupWait]
  match engineClose .closeRaftEngine raftCloseErr tr with
  | (tr, some e) => { events := tr, result := .error e }
  | (tr, none) =>
    match engineClose .closeKvEngine kvCloseErr tr with
    | (tr, some e) => { events := tr, result := .error e }
    | (tr, none) => { events := tr, result := .ok () }

/-- The `filepath.Join(dir, name)` for a single cleaned component appended to a
cleaned base path. -/
def filepathJoin (dir name : String) : String :=
  if dir = "" then name else dir ++ "/" ++ name

/-- A directory-creation call made by `NewRaftStorage`: `os.MkdirAll` creates
the directory and any missing parents and is a no-op when it already exists;
`os.Mkdir` creates the single directory when absent (its error, also the
already-exists error, is ignored by the caller). -/
inductive FsOp where
  | mkdirAll (path : String)
  | mkdir (path : String)
deriving DecidableEq, Repr

/-- The path a directory-creation call creates. -/
def FsOp.path : FsOp → String
  | .mkdirAll p => p
  | .mkdir p => p

/-- The engine handles kept by the storage (`engine_util.Engines`): database
handles are opaque, the on-disk paths are recorded. -/
structure Engines where
  kvPath : String
  raftPath : String
deriving DecidableEq, Repr

/-- The `NewRaftStorage(conf)`: derive the `kv`, `raft` and `snap` paths under
`conf.DBPath`, create the three directories, open the two engines over the
first two paths.  Returned as the engines plus the trace of directory-creation
calls. -/
def NewRaftStorage (dbPath : String) : Engines × List FsOp :=
  let kvPath := filepathJoin dbPath "kv"
  let raftPath := filepathJoin dbPath "raft"
  let snapPath := filepathJoin dbPath "snap"
  ({ kvPath := kvPath, raftPath := raftPath },
   [.mkdirAll kvPath, .mkdirAll raftPath, .mkdir snapPath])

/-- The snapshot staging path handed to `snap.NewSnapManager` inside
`Start`. -/
def startSnapManagerPath (dbPath : String) : String :=
  filepathJoin dbPath "snap"

/-- Order-and-field-preserving translation of one modification into the
request that represents it inside a command: a `Put` becomes a put request
carrying cf, key and value; a `Delete` becomes a delete request carrying cf
and key. -/
inductive ModifyTranslated : Modify → Request → Prop where
  | putCase (cf : String) (key value : Bytes) :
      ModifyTranslated ⟨.put cf key value⟩
        { cmdType := .put, put := some { cf := cf, key := key, value := value } }
  | deleteCase (cf : String) (key : Bytes) :
      ModifyTranslated ⟨.delete cf key⟩
        { cmdType := .delete, delete := some { cf := cf, key := key } }

/-- Translating the kept modifications of any batch, in order, gives exactly
the accumulated request list. -/
theorem writeRequests_filter_forall2 (batch : List Modify) :
    List.Forall₂ ModifyTranslated (batch.filter (fun m => m.data.isWrite))
      (writeRequests batch) := by
  induction batch with
  | nil => simp [writeRequests]
  | cons m rest ih =>
    rcases m with ⟨d⟩
    cases d with
    | put cf key value =>
      simpa [writeRequests, ModifyData.isWrite, modifyToRequest] using
        List.Forall₂.cons (ModifyTranslated.putCase cf key value) ih
    | delete cf key =>
      simpa [writeRequests, ModifyData.isWrite, modifyToRequest] using
        List.Forall₂.cons (ModifyTranslated.deleteCase cf key) ih
    | other =>
      simpa [writeRequests, ModifyData.isWrite, modifyToRequest] using ih

/-- When every modification of the batch is a `Put` or a `Delete`, the request
list is the pointwise, order-preserving translation of the whole batch. -/
theorem writeRequests_forall2_of_all_writes (batch : List Modify)
    (h : ∀ m ∈ batch, m.data.isWrite = true) :
    List.Forall₂ ModifyTranslated batch (writeRequests batch) := by
  have hf : batch.filter (fun m => m.data.isWrite) = batch :=
    List.filter_eq_self.mpr h
  simpa [hf] using writeRequests_filter_forall2 batch

/-- checkResponse succeeds exactly when the header carries no error and the
response count equals the request count. -/
theorem checkResponse_eq_none_iff (resp : RaftCmdResponse) (n : Nat) :
    RaftStorage.checkResponse resp n = none ↔
      resp.header.error = none ∧ resp.responses.length = n := by
  rcases h : resp.header.error with _ | e <;>
    simp [RaftStorage.checkResponse, h]

/-- The write entry point always proposes exactly one command. -/
theorem Write_proposed (router : Router) (ctx : Context) (batch : List Modify) :
    (RaftStorage.Write router ctx batch).proposed = [writeCmd ctx batch] := by
  simp only [RaftStorage.Write]
  cases router (writeCmd ctx batch) <;> rfl

/-- The read entry point always proposes exactly one command. -/
theorem Reader_proposed (router : Router) (ctx : Context) :
    (RaftStorage.Reader router ctx).proposed = [readCmd ctx] := by
  simp only [RaftStorage.Reader]
  repeat' split
  all_goals rfl

/-- When the router fulfills the write's callback, the write's result is the
verdict of checkResponse on the fulfilled response against the number of
translated requests. -/
theorem Write_result_ok_case (router : Router) (ctx : Context)
    (batch : List Modify) (cb : Callback)
    (hok : router (writeCmd ctx batch) = .ok cb) :
    (RaftStorage.Write router ctx batch).result =
      (match RaftStorage.checkResponse cb.resp (writeRequests batch).length with
       | some e => Except.error e
       | none => Except.ok ()) := by
  simp only [RaftStorage.Write]
  rw [hok]

/-- Claim C1: for a batch made only of Put and Delete modifications and any
routing context, Write proposes exactly one command to the raft router; its
request list is the order- and field-preserving translation of the batch; its
header carries the context's region id, peer, region epoch and term; and when
the router fulfills the callback, the returned result is computed from the
fulfilled response (success or the checkResponse error). -/
theorem write_proposes_one_ordered_command (router : Router) (ctx : Context)
    (batch : List Modify) (h : ∀ m ∈ batch, m.data.isWrite = true) :
    (RaftStorage.Write router ctx batch).proposed = [writeCmd ctx batch] ∧
    List.Forall₂ ModifyTranslated batch (writeCmd ctx batch).requests ∧
    (writeCmd ctx batch).header.regionId = ctx.regionId ∧
    (writeCmd ctx batch).header.peer = ctx.peer ∧
    (writeCmd ctx batch).header.regionEpoch = ctx.regionEpoch ∧
    (writeCmd ctx batch).header.term = ctx.term ∧
    ∀ cb : Callback, router (writeCmd ctx batch) = .ok cb →
      (RaftStorage.Write router ctx batch).result =
        (match RaftStorage.checkResponse cb.resp (writeCmd ctx batch).requests.length with
         | some e => Except.error e
         | none => Except.ok ()) := by
  refine ⟨Write_proposed router ctx batch,
    writeRequests_forall2_of_all_writes batch h, rfl, rfl, rfl, rfl, ?_⟩
  intro cb hok
  exact Write_result_ok_case router ctx batch cb hok

/-- A concrete routing context used by the closed instantiations below. -/
def wCtx : Context :=
  { regionId := 1, regionEpoch := some ⟨1, 3⟩, peer := some ⟨2, 5⟩, term := 7 }

/-- A concrete batch holding one put and one delete. -/
def wBatch2 : List Modify :=
  [⟨.put "default" [97] [49]⟩, ⟨.delete "default" [98]⟩]

/-- A concrete fulfilled callback carrying two per-operation responses and no
header error. -/
def wCb2 : Callback :=
  { resp := { header := { error := none }
              responses := [{ cmdType := .put }, { cmdType := .delete }] }
    txn := none }

/-- A router that fulfills every proposed command's callback with wCb2. -/
def wRouter2 : Router := fun _ => .ok wCb2

/-- Closed instantiation of write_proposes_one_ordered_command. -/
theorem write_proposes_one_ordered_command_witness :
    (RaftStorage.Write wRouter2 wCtx wBatch2).proposed = [writeCmd wCtx wBatch2] :=
  (write_proposes_one_ordered_command wRouter2 wCtx wBatch2 (by decide)).1

/-- Claim C2: when the router fulfills the write's callback with a response
whose header carries no region error, the write succeeds exactly when the
per-operation response count equals the number of requests in the proposed
batch; a mismatch produces the internal count-mismatch error, which is not a
region error (not a caller-recoverable rejection). -/
theorem write_success_iff_response_count_matches (router : Router)
    (ctx : Context) (batch : List Modify) (cb : Callback)
    (hok : router (writeCmd ctx batch) = .ok cb)
    (hnoerr : cb.resp.header.error = none) :
    ((RaftStorage.Write router ctx batch).result = .ok () ↔
      cb.resp.responses.length = (writeCmd ctx batch).requests.length) ∧
    (cb.resp.responses.length ≠ (writeCmd ctx batch).requests.length →
      (RaftStorage.Write router ctx batch).result =
        .error (.countMismatch cb.resp.responses.length
          (writeCmd ctx batch).requests.length)) ∧
    ∀ got expected : Nat,
      (StorageError.countMismatch got expected).isRegionError = false := by
  have hW := Write_result_ok_case router ctx batch cb hok
  refine ⟨?_, ?_, fun got expected => rfl⟩
  · rw [hW]
    simp only [RaftStorage.checkResponse, hnoerr]
    by_cases hlen : cb.resp.responses.length = (writeRequests batch).length
    · simp [hlen, writeCmd]
    · simp [hlen, writeCmd]
  · intro hne
    have hne' : cb.resp.responses.length ≠ (writeRequests batch).length := by
      simpa [writeCmd] using hne
    rw [hW]
    simp only [RaftStorage.checkResponse, hnoerr]
    simp [hne', writeCmd]

/-- A concrete fulfilled callback whose error-free response carries a single
entry, mismatching the two-request batch wBatch2. -/
def wCbMismatch : Callback :=
  { resp := { header := { error := none }, responses := [{ cmdType := .put }] }
    txn := none }

/-- A router that fulfills every callback with wCbMismatch. -/
def wRouterMismatch : Router := fun _ => .ok wCbMismatch

/-- Closed instantiation of write_success_iff_response_count_matches. -/
theorem write_success_iff_response_count_matches_witness :
    (RaftStorage.Write wRouterMismatch wCtx wBatch2).result =
      .error (.countMismatch 1 2) :=
  (write_success_iff_response_count_matches wRouterMismatch wCtx wBatch2
    wCbMismatch rfl rfl).2.1 (by decide)

/-- Claim C3: a region error carried in the fulfilled response's header is
returned to the caller — by the write path and by the read path — wrapped in
the dedicated region-error kind, which is distinct from the internal
count-mismatch and router-send failures. -/
theorem region_error_surfaced_as_typed_kind (router : Router) (ctx : Context)
    (batch : List Modify) (cbw cbr : Callback) (ew er : ErrorPb)
    (hw : router (writeCmd ctx batch) = .ok cbw)
    (hwe : cbw.resp.header.error = some ew)
    (hr : router (readCmd ctx) = .ok cbr)
    (hre : cbr.resp.header.error = some er) :
    (RaftStorage.Write router ctx batch).result = .error (.regionError ew) ∧
    (RaftStorage.Reader router ctx).result = .err (.regionError er) ∧
    (StorageError.regionError ew).isRegionError = true ∧
    (∀ got expected : Nat,
      StorageError.regionError ew ≠ .countMismatch got expected) ∧
    (∀ msg : String, StorageError.regionError er ≠ .routerError msg) := by
  have hcw : RaftStorage.checkResponse cbw.resp (writeRequests batch).length =
      some (.regionError ew) := by
    simp [RaftStorage.checkResponse, hwe]
  have hcr : RaftStorage.checkResponse cbr.resp 1 = some (.regionError er) := by
    simp [RaftStorage.checkResponse, hre]
  refine ⟨?_, ?_, rfl, ?_, ?_⟩
  · rw [Write_result_ok_case router ctx batch cbw hw, hcw]
  · simp [RaftStorage.Reader, hr, hcr]
  · intro got expected hcontra
    cases hcontra
  · intro msg hcontra
    cases hcontra

/-- A concrete callback fulfilled with a not-leader region error in the
response header and a read transaction attached despite the error. -/
def wCbRegionErr : Callback :=
  { resp := { header := { error := some ⟨"not leader"⟩ }, responses := [] }
    txn := some 9 }

/-- A router that fulfills every callback with wCbRegionErr. -/
def wRouterRegionErr : Router := fun _ => .ok wCbRegionErr

/-- Closed instantiation of region_error_surfaced_as_typed_kind. -/
theorem region_error_surfaced_as_typed_kind_witness :
    (RaftStorage.Write wRouterRegionErr wCtx wBatch2).result =
      .error (.regionError ⟨"not leader"⟩) :=
  (region_error_surfaced_as_typed_kind wRouterRegionErr wCtx wBatch2
    wCbRegionErr wCbRegionErr ⟨"not leader"⟩ ⟨"not leader"⟩ rfl rfl rfl rfl).1

/-- Claim C4: the read entry point proposes exactly one Snap-type command
whose single request carries no payload (only the empty snap marker, every
other sub-request nil), whose header coincides with the header a write built
from the same routing context carries, and which goes through the same
router/checkResponse mechanism: a send error and a checkResponse error are
propagated exactly as on the write path. -/
theorem reader_builds_snap_command (router : Router) (ctx : Context)
    (batch : List Modify) :
    (RaftStorage.Reader router ctx).proposed = [readCmd ctx] ∧
    (readCmd ctx).requests = [snapRequest] ∧
    snapRequest.cmdType = CmdType.snap ∧
    snapRequest.snap = some {} ∧
    snapRequest.get = none ∧
    snapRequest.put = none ∧
    snapRequest.delete = none ∧
    (readCmd ctx).header = (writeCmd ctx batch).header ∧
    (readCmd ctx).header = requestHeader ctx ∧
    (∀ msg : String, router (readCmd ctx) = .err msg →
      (RaftStorage.Reader router ctx).result = .err (.routerError msg)) ∧
    (∀ (cb : Callback) (e : StorageError), router (readCmd ctx) = .ok cb →
      RaftStorage.checkResponse cb.resp 1 = some e →
      (RaftStorage.Reader router ctx).result = .err e) := by
  refine ⟨Reader_proposed router ctx, rfl, rfl, rfl, rfl, rfl, rfl, rfl, rfl,
    ?_, ?_⟩
  · intro msg hmsg
    simp [RaftStorage.Reader, hmsg]
  · intro cb e hok hchk
    simp [RaftStorage.Reader, hok, hchk]

/-- Closed instantiation of reader_builds_snap_command. -/
theorem reader_builds_snap_command_witness :
    (RaftStorage.Reader wRouterRegionErr wCtx).result =
      .err (.regionError ⟨"not leader"⟩) :=
  (reader_builds_snap_command wRouterRegionErr wCtx wBatch2).2.2.2.2.2.2.2.2.2.2
    wCbRegionErr (.regionError ⟨"not leader"⟩) rfl rfl

/-- Claim C5: when the read's callback is fulfilled and checkResponse finds no
error, the response holds exactly one entry; a missing read transaction on the
callback aborts the code path with a panic, as does a missing snap payload or
missing region descriptor in that entry (a nil-pointer dereference); no
ordinary error is ever returned on this path; and when the transaction and
the region descriptor are present, a region reader bound to exactly that
transaction and descriptor is returned. -/
theorem reader_success_requires_handle_and_region (router : Router)
    (ctx : Context) (cb : Callback)
    (hok : router (readCmd ctx) = .ok cb)
    (hchk : RaftStorage.checkResponse cb.resp 1 = none) :
    cb.resp.responses.length = 1 ∧
    (cb.txn = none →
      (RaftStorage.Reader router ctx).result =
        .fatal "can not found region snap") ∧
    (∀ (t : Txn) (r0 : Response), cb.txn = some t →
      cb.resp.responses = [r0] →
      (r0.snap = none →
        (RaftStorage.Reader router ctx).result =
          .fatal "invalid memory address or nil pointer dereference") ∧
      (∀ s : SnapResponse, r0.snap = some s → s.region = none →
        (RaftStorage.Reader router ctx).result =
          .fatal "invalid memory address or nil pointer dereference") ∧
      (∀ (s : SnapResponse) (reg : Region), r0.snap = some s →
        s.region = some reg →
        (RaftStorage.Reader router ctx).result =
          .ok { txn := t, region := reg })) ∧
    ∀ e : StorageError, (RaftStorage.Reader router ctx).result ≠ .err e := by
  obtain ⟨herr, hlen⟩ := (checkResponse_eq_none_iff cb.resp 1).mp hchk
  refine ⟨hlen, ?_, ?_, ?_⟩
  · intro htxn
    simp [RaftStorage.Reader, hok, hchk, htxn]
  · intro t r0 htxn hresp
    refine ⟨?_, ?_, ?_⟩
    · intro hsnap
      simp [RaftStorage.Reader, hok, hchk, htxn, hresp, hsnap]
    · intro s hsnap hreg
      simp [RaftStorage.Reader, hok, hchk, htxn, hresp, hsnap, hreg]
    · intro s reg hsnap hreg
      simp [RaftStorage.Reader, hok, hchk, htxn, hresp, hsnap, hreg]
  · intro e
    obtain ⟨r0, hresp⟩ := List.length_eq_one.mp hlen
    rcases htxn : cb.txn with _ | t
    · simp [RaftStorage.Reader, hok, hchk, htxn]
    · rcases hsnap : r0.snap with _ | s
      · simp [RaftStorage.Reader, hok, hchk, htxn, hresp, hsnap]
      · rcases hreg : s.region with _ | reg
        · simp [RaftStorage.Reader, hok, hchk, htxn, hresp, hsnap, hreg]
        · simp [RaftStorage.Reader, hok, hchk, htxn, hresp, hsnap, hreg]

/-- A concrete region descriptor. -/
def wRegion : Region :=
  { id := 1, startKey := [], endKey := [], regionEpoch := some ⟨1, 3⟩
    peers := [⟨2, 5⟩] }

/-- The single response of a successful snap command, carrying wRegion. -/
def wSnapResp0 : Response := { cmdType := .snap, snap := some ⟨some wRegion⟩ }

/-- A concrete callback fulfilled with an error-free single-entry snap
response and an attached read transaction. -/
def wCbSnap : Callback :=
  { resp := { header := { error := none }, responses := [wSnapResp0] }
    txn := some 42 }

/-- A router that fulfills every callback with wCbSnap. -/
def wRouterSnap : Router := fun _ => .ok wCbSnap

/-- Closed instantiation of reader_success_requires_handle_and_region. -/
theorem reader_success_requires_handle_and_region_witness :
    (RaftStorage.Reader wRouterSnap wCtx).result =
      .ok { txn := 42, region := wRegion } :=
  ((reader_success_requires_handle_and_region wRouterSnap wCtx wCbSnap rfl
    rfl).2.2.1 42 wSnapResp0 rfl rfl).2.2 ⟨some wRegion⟩ wRegion rfl rfl

/-- Claim C6: when the read's callback is fulfilled but checkResponse reports
an error (a region error or a count mismatch), the read transaction attached
to the callback — if any was attached despite the error — is discarded, the
error itself is propagated, and no region reader is returned. -/
theorem reader_error_path_releases_read_handle (router : Router)
    (ctx : Context) (cb : Callback) (e : StorageError)
    (hok : router (readCmd ctx) = .ok cb)
    (hchk : RaftStorage.checkResponse cb.resp 1 = some e) :
    (RaftStorage.Reader router ctx).discarded = cb.txn.toList ∧
    (∀ t : Txn, cb.txn = some t →
      (RaftStorage.Reader router ctx).discarded = [t]) ∧
    (cb.txn = none → (RaftStorage.Reader router ctx).discarded = []) ∧
    (RaftStorage.Reader router ctx).result = .err e ∧
    ∀ r : RegionReader, (RaftStorage.Reader router ctx).result ≠ .ok r := by
  have hred : RaftStorage.Reader router ctx =
      { proposed := [readCmd ctx], discarded := cb.txn.toList
        result := .err e } := by
    simp [RaftStorage.Reader, hok, hchk]
  refine ⟨by rw [hred], ?_, ?_, by rw [hred], ?_⟩
  · intro t htxn
    rw [hred]
    simp [htxn]
  · intro htxn
    rw [hred]
    simp [htxn]
  · intro r
    rw [hred]
    simp

/-- Closed instantiation of reader_error_path_releases_read_handle. -/
theorem reader_error_path_releases_read_handle_witness :
    (RaftStorage.Reader wRouterRegionErr wCtx).discarded = [9] :=
  (reader_error_path_releases_read_handle wRouterRegionErr wCtx wCbRegionErr
    (.regionError ⟨"not leader"⟩) rfl rfl).2.1 9 rfl

/-- Claim C7: Stop performs its teardown steps in order — snapshot worker,
router node, resolver worker, wait-group wait — and only afterwards closes the
raft engine and then, only if the raft close succeeded, the kv engine; it
returns the first engine-close error and success otherwise. -/
theorem stop_teardown_order (raftCloseErr kvCloseErr : Option String) :
    (RaftStorage.Stop raftCloseErr kvCloseErr).events =
      [.stopSnapWorker, .stopNode, .stopResolveWorker, .waitGroupWait,
        .closeRaftEngine] ++
        (if raftCloseErr = none then [StopEvent.closeKvEngine] else []) ∧
    (RaftStorage.Stop raftCloseErr kvCloseErr).result =
      (match raftCloseErr with
       | some e => Except.error e
       | none =>
         match kvCloseErr with
         | some e => Except.error e
         | none => Except.ok ()) := by
  cases raftCloseErr <;> cases kvCloseErr <;>
    simp [RaftStorage.Stop, engineClose]

/-- Claim C8: constructing the storage derives the kv, raft and snap paths as
the three like-named entries of the base data directory and issues exactly
three directory-creation calls, one per path, in that order; the engines are
opened over the kv and raft paths and the snapshot manager started later by
Start is rooted at the same snap path. -/
theorem storage_creates_three_subdirectories (dbPath : String) :
    (NewRaftStorage dbPath).2.map FsOp.path =
      [filepathJoin dbPath "kv", filepathJoin dbPath "raft",
        filepathJoin dbPath "snap"] ∧
    (NewRaftStorage dbPath).1.kvPath = filepathJoin dbPath "kv" ∧
    (NewRaftStorage dbPath).1.raftPath = filepathJoin dbPath "raft" ∧
    startSnapManagerPath dbPath = filepathJoin dbPath "snap" ∧
    (dbPath ≠ "" →
      (NewRaftStorage dbPath).2.map FsOp.path =
        [dbPath ++ "/" ++ "kv", dbPath ++ "/" ++ "raft",
          dbPath ++ "/" ++ "snap"]) := by
  refine ⟨rfl, rfl, rfl, rfl, ?_⟩
  intro hne
  simp [NewRaftStorage, filepathJoin, FsOp.path, hne]

/-- Closed instantiation of storage_creates_three_subdirectories. -/
theorem storage_creates_three_subdirectories_witness :
    (NewRaftStorage "/data").2.map FsOp.path =
      ["/data" ++ "/" ++ "kv", "/data" ++ "/" ++ "raft",
        "/data" ++ "/" ++ "snap"] :=
  (storage_creates_three_subdirectories "/data").2.2.2.2 (by decide)

/-- Claim C9: Write translates only the Put and Delete modifications of the
batch — any other modification is skipped — so the command carries one request
per kept modification, in order; and the success check compares the response
count against the number of translated requests, not against the length of the
original batch. -/
theorem write_translates_only_put_delete (router : Router) (ctx : Context)
    (batch : List Modify) (cb : Callback)
    (hok : router (writeCmd ctx batch) = .ok cb)
    (hnoerr : cb.resp.header.error = none) :
    List.Forall₂ ModifyTranslated (batch.filter (fun m => m.data.isWrite))
      (writeCmd ctx batch).requests ∧
    (writeCmd ctx batch).requests.length =
      batch.countP (fun m => m.data.isWrite) ∧
    ((RaftStorage.Write router ctx batch).result = .ok () ↔
      cb.resp.responses.length = batch.countP (fun m => m.data.isWrite)) := by
  have hfor : List.Forall₂ ModifyTranslated
      (batch.filter (fun m => m.data.isWrite)) (writeRequests batch) :=
    writeRequests_filter_forall2 batch
  have hcount : (writeRequests batch).length =
      batch.countP (fun m => m.data.isWrite) := by
    rw [List.countP_eq_length_filter]
    exact hfor.length_eq.symm
  refine ⟨hfor, hcount, ?_⟩
  rw [Write_result_ok_case router ctx batch cb hok]
  simp only [RaftStorage.checkResponse, hnoerr]
  rw [← hcount]
  by_cases hlen : cb.resp.responses.length = (writeRequests batch).length
  · simp [hlen]
  · simp [hlen]

/-- A concrete batch holding a put, a modification of an untranslated dynamic
type, and a delete. -/
def wBatch3 : List Modify :=
  [⟨.put "default" [97] [49]⟩, ⟨.other⟩, ⟨.delete "default" [98]⟩]

/-- A router that fulfills every callback with the two-entry response wCb2
(the translated size of wBatch3, not its length). -/
def wRouter3 : Router := fun _ => .ok wCb2

/-- Closed instantiation of write_translates_only_put_delete. -/
theorem write_translates_only_put_delete_witness :
    (RaftStorage.Write wRouter3 wCtx wBatch3).result = .ok () :=
  (write_translates_only_put_delete wRouter3 wCtx wBatch3 wCb2 rfl
    rfl).2.2.mpr (by decide)

/-- Claim C10: the wrong-response-count panic in the read path is unreachable:
a checkResponse success against an expected count of one already forces the
response to hold exactly one entry, so no run of Reader ever aborts with the
wrong-response-count message. -/
theorem snap_wrong_count_fatal_unreachable :
    (∀ resp : RaftCmdResponse,
      RaftStorage.checkResponse resp 1 = none → resp.responses.length = 1) ∧
    ∀ (router : Router) (ctx : Context),
      (RaftStorage.Reader router ctx).result ≠
        .fatal "wrong response count for snap cmd" := by
  have hone : ∀ resp : RaftCmdResponse,
      RaftStorage.checkResponse resp 1 = none → resp.responses.length = 1 :=
    fun resp h => ((checkResponse_eq_none_iff resp 1).mp h).2
  refine ⟨hone, ?_⟩
  intro router ctx
  rcases hr : router (readCmd ctx) with msg | cb
  · simp [RaftStorage.Reader, hr]
  · rcases hc : RaftStorage.checkResponse cb.resp 1 with _ | e
    · obtain ⟨r0, hresp⟩ := List.length_eq_one.mp (hone cb.resp hc)
      rcases htxn : cb.txn with _ | t
      · simp only [RaftStorage.Reader, hr, hc, htxn]
        intro hcontra
        exact absurd (ReaderResult.fatal.inj hcontra) (by decide)
      · rcases hsnap : r0.snap with _ | s
        · simp [RaftStorage.Reader, hr, hc, htxn, hresp, hsnap]
        · rcases hreg : s.region with _ | reg
          · simp [RaftStorage.Reader, hr, hc, htxn, hresp, hsnap, hreg]
          · simp [RaftStorage.Reader, hr, hc, htxn, hresp, hsnap, hreg]
    · simp [RaftStorage.Reader, hr, hc]

/-- Closed instantiation of snap_wrong_count_fatal_unreachable. -/
theorem snap_wrong_count_fatal_unreachable_witness :
    wCbSnap.resp.responses.length = 1 ∧
    (RaftStorage.Reader wRouterSnap wCtx).result ≠
      .fatal "wrong response count for snap cmd" :=
  ⟨snap_wrong_count_fatal_unreachable.1 wCbSnap.resp rfl,
    snap_wrong_count_fatal_unreachable.2 wRouterSnap wCtx⟩

/-- Closed instantiation of stop_teardown_order. -/
theorem stop_teardown_order_witness :
    (RaftStorage.Stop (some "close failed") none).events =
      [.stopSnapWorker, .stopNode, .stopResolveWorker, .waitGroupWait,
        .closeRaftEngine] := by
  have h := (stop_teardown_order (some "close failed") none).1
  simpa using h
